import Mathlib

/-!
Shallow embedding of the traffic-simulator Durable Object and its Worker
router (`src/traffic-simulator.js` of cf_ai_impact_dashboard).

JavaScript numbers are modelled as exact rationals (`ℚ`); `Math.round` and
`Math.floor` become the corresponding integer operations on `ℚ`.  Wall-clock
times (`Date.now()`) are natural-number milliseconds.  `Math.random()` draws
are explicit parameters constrained to `[0, 1)`.  The external Workers AI
capability is modelled by an explicit outcome parameter.
-/

namespace CFDash

/-- The three valid simulation types (`validTypes = ['normal','spike','ddos']`). -/
inductive Scenario where
  | normal
  | spike
  | ddos
deriving DecidableEq, Repr

/-- `validTypes.includes(type)` on a raw string, returning the parsed tag. -/
def scenarioOfString : String → Option Scenario
  | "normal" => some .normal
  | "spike" => some .spike
  | "ddos" => some .ddos
  | _ => none

/-- One side of the metric pair: `{latency, successRate, requestsHandled, errors}`. -/
structure MetricSnapshot where
  latency : ℤ
  successRate : ℚ
  requestsHandled : ℕ
  errors : ℤ
deriving DecidableEq, Repr

/-- `{cloudflare, origin}` pair as produced by `generateMetrics` and held in
`this.metrics`. -/
structure MetricPair where
  cloudflare : MetricSnapshot
  origin : MetricSnapshot
deriving DecidableEq, Repr

/-- JavaScript `Math.round` (half rounds toward +∞). -/
def jsRound (q : ℚ) : ℤ := ⌊q + 1/2⌋

/-- JavaScript `Math.floor`. -/
def jsFloor (q : ℚ) : ℤ := ⌊q⌋

/-- `roundLatency = (value) => Math.round(value)` from `generateMetrics`. -/
def roundLatency (value : ℚ) : ℤ := jsRound value

/-- `roundSuccess = (value) => Math.round(Math.max(0, Math.min(100, value)) * 10) / 10`. -/
def roundSuccess (value : ℚ) : ℚ := (jsRound (max 0 (min 100 value) * 10) : ℚ) / 10

/-- The `Math.random()` draws consumed by one `generateMetrics` call, in source
order (cloudflare latency, cloudflare success, cloudflare errors, origin
latency, origin success); the `normal` branch consumes only the two latency
draws. -/
structure Draws where
  d1 : ℚ
  d2 : ℚ
  d3 : ℚ
  d4 : ℚ
  d5 : ℚ
deriving DecidableEq, Repr

/-- Every draw modelled lies in `[0, 1)`, as `Math.random()` guarantees. -/
def ValidDraws (d : Draws) : Prop :=
  (0 ≤ d.d1 ∧ d.d1 < 1) ∧ (0 ≤ d.d2 ∧ d.d2 < 1) ∧ (0 ≤ d.d3 ∧ d.d3 < 1) ∧
    (0 ≤ d.d4 ∧ d.d4 < 1) ∧ (0 ≤ d.d5 ∧ d.d5 < 1)

instance (d : Draws) : Decidable (ValidDraws d) :=
  inferInstanceAs (Decidable ((0 ≤ d.d1 ∧ d.d1 < 1) ∧ (0 ≤ d.d2 ∧ d.d2 < 1) ∧
    (0 ≤ d.d3 ∧ d.d3 < 1) ∧ (0 ≤ d.d4 ∧ d.d4 < 1) ∧ (0 ≤ d.d5 ∧ d.d5 < 1)))

/-- `generateMetrics(type)` of the Durable Object, with the random draws made
explicit. -/
def generateMetrics (type : Scenario) (d : Draws) : MetricPair :=
  match type with
  | .normal =>
      { cloudflare :=
          { latency := roundLatency (95 + d.d1 * 10)
            successRate := 100
            requestsHandled := 10
            errors := 0 }
        origin :=
          { latency := roundLatency (100 + d.d2 * 20)
            successRate := 100
            requestsHandled := 10
            errors := 0 } }
  | .spike =>
      { cloudflare :=
          { latency := roundLatency (120 + d.d1 * 30)
            successRate := roundSuccess (98 + d.d2 * 2)
            requestsHandled := 500
            errors := jsFloor (d.d3 * 10) }
        origin :=
          { latency := roundLatency (2000 + d.d4 * 1000)
            successRate := roundSuccess (40 + d.d5 * 20)
            requestsHandled := 300
            errors := 200 } }
  | .ddos =>
      { cloudflare :=
          { latency := roundLatency (150 + d.d1 * 50)
            successRate := roundSuccess (95 + d.d2 * 3)
            requestsHandled := 10000
            errors := jsFloor (d.d3 * 500) }
        origin :=
          { latency := roundLatency (5000 + d.d4 * 2000)
            successRate := roundSuccess (d.d5 * 10)
            requestsHandled := 500
            errors := 9500 } }

/-- `getInitialMetrics()` of the Durable Object. -/
def getInitialMetrics : MetricPair :=
  { cloudflare := { latency := 100, successRate := 100, requestsHandled := 0, errors := 0 }
    origin := { latency := 100, successRate := 100, requestsHandled := 0, errors := 0 } }

/-! ## Simulation actor (`TrafficSimulator` Durable Object) -/

/-- The `simulation` object built by `handleSimulateRequest`:
`{id, type, startTime, isActive}`.  Note the source stores a literal
`isActive: true` field at creation. -/
structure Simulation where
  id : String
  type : Scenario
  startTime : ℕ
  isActive : Bool
deriving DecidableEq, Repr

/-- The Durable Object's in-memory state: `this.currentSimulation` and
`this.metrics`.  This is also exactly the shape persisted by `persistState`
under the single `'state'` key. -/
structure ActorState where
  currentSimulation : Option Simulation
  metrics : MetricPair
deriving DecidableEq, Repr

/-- State of a fresh actor before any restore: `currentSimulation = null`,
`metrics = getInitialMetrics()`. -/
def initialActorState : ActorState :=
  { currentSimulation := none, metrics := getInitialMetrics }

/-- Constructor restore logic: read the `'state'` blob; if present, take
`stored.currentSimulation ?? null` and `stored.metrics ?? getInitialMetrics()`,
else keep the initial state.  Absence of the blob is not an error. -/
def restoreState (blob : Option ActorState) : ActorState :=
  match blob with
  | some stored =>
      { currentSimulation := stored.currentSimulation
        metrics := stored.metrics }
  | none => initialActorState

/-- `persistState()` writes `{currentSimulation, metrics}` — the full
in-memory state — as the single durable blob. -/
def persistStateBlob (st : ActorState) : ActorState :=
  { currentSimulation := st.currentSimulation, metrics := st.metrics }

/-- Outcome of the external Workers AI capability, as observed by
`getAIExplanation`: the binding may be absent (`!this.env.AI`), the call may
throw (including the abort raised by the 5-second timer), or it may return a
payload whose extracted response text is a string. -/
inductive AIOutcome where
  | unavailable
  | callError
  | timeout
  | ok (responseText : String)
deriving DecidableEq, Repr

/-- The canned `fallback` table of `getAIExplanation`, keyed by type. -/
def fallbackFor : Scenario → String
  | .normal =>
      "Normal traffic conditions with both systems performing optimally. Cloudflare provides marginal improvements through caching and optimization."
  | .spike =>
      "Traffic surge overwhelming unprotected origin while Cloudflare absorbs the load. Clear demonstration of DDoS protection and auto-scaling capabilities."
  | .ddos =>
      "Massive DDoS attack completely disabling unprotected origin. Cloudflare successfully mitigating 99.5% of malicious traffic while maintaining service availability."

/-- JavaScript `String.prototype.trim`: drop leading and trailing whitespace. -/
def jsTrim (s : String) : String :=
  ⟨((s.data.dropWhile Char.isWhitespace).reverse.dropWhile Char.isWhitespace).reverse⟩

/-- `getAIExplanation(type, metrics)`: with no AI binding, a thrown error, or a
timeout-abort it returns the canned fallback; on a response it trims the
extracted text and substitutes the fallback when the trimmed text is empty
(`return trimmed || fallback[type]`).  The prompt built from `metrics` only
feeds the external call, whose result is the `outcome` parameter. -/
def getAIExplanation (type : Scenario) (outcome : AIOutcome) : String :=
  match outcome with
  | .unavailable => fallbackFor type
  | .callError => fallbackFor type
  | .timeout => fallbackFor type
  | .ok responseText =>
      let trimmed := jsTrim responseText
      if trimmed = "" then fallbackFor type else trimmed

/-- Parsed JSON body of a POST `/simulate` to the Durable Object:
`{type, simulationId}`.  `simulationId = none` models a missing or
non-string field (`typeof simulationId !== 'string'`). -/
structure SimBody where
  type : String
  simulationId : Option String
deriving DecidableEq, Repr

/-- Observable steps of one `handleSimulateRequest` call, in source order. -/
inductive Event where
  | reject
  | buildRecord
  | generateMetricsEv
  | updateState
  | persistEv
  | explainEv
  | respond
deriving DecidableEq, Repr

/-- Result of one `handleSimulateRequest` call as seen by the caller. -/
inductive SimResult where
  | invalidRequest
  | storageError
  | ok (simulation : Simulation) (metrics : MetricPair) (aiExplanation : String)
      (timestamp : ℕ)
deriving DecidableEq, Repr

/-- `true` exactly on the 400 `Invalid type` response. -/
def SimResult.isInvalid : SimResult → Bool
  | .invalidRequest => true
  | _ => false

/-- Full outcome of one `handleSimulateRequest` call: caller-visible result,
in-memory state after the call, the blob durably written during the call (if
any), and the trace of steps performed. -/
structure SimOutcome where
  result : SimResult
  state : ActorState
  persisted : Option ActorState
  trace : List Event
deriving Repr

/-- `handleSimulateRequest` of the Durable Object (after JSON parsing):
validates `type` against `validTypes` and `simulationId` against
`typeof … === 'string'`; then takes `timestamp = Date.now()`, builds the
`simulation` record (with stored `isActive: true`), runs `generateMetrics`,
assigns `this.metrics` and `this.currentSimulation`, awaits `persistState()`
(`storageOk = false` models a throwing durable write, which propagates out of
the handler before the explanation step), then awaits `getAIExplanation` and
responds with `{simulation, metrics, aiExplanation, timestamp}`. -/
def handleSimulateRequest (st : ActorState) (body : SimBody) (now : ℕ)
    (d : Draws) (ai : AIOutcome) (storageOk : Bool) : SimOutcome :=
  match scenarioOfString body.type, body.simulationId with
  | some type, some simulationId =>
      let simulation : Simulation :=
        { id := simulationId, type := type, startTime := now, isActive := true }
      let metrics := generateMetrics type d
      let st1 : ActorState :=
        { currentSimulation := some simulation, metrics := metrics }
      if storageOk then
        let aiExplanation := getAIExplanation type ai
        { result := .ok simulation metrics aiExplanation now
          state := st1
          persisted := some (persistStateBlob st1)
          trace := [.buildRecord, .generateMetricsEv, .updateState, .persistEv,
                    .explainEv, .respond] }
      else
        { result := .storageError
          state := st1
          persisted := none
          trace := [.buildRecord, .generateMetricsEv, .updateState, .persistEv] }
  | _, _ =>
      { result := .invalidRequest, state := st, persisted := none, trace := [.reject] }

/-- Body of the 200 response of `handleStatusRequest`. -/
structure StatusResponse where
  simulation : Option Simulation
  metrics : MetricPair
  timestamp : ℕ
deriving DecidableEq, Repr

/-- `handleStatusRequest`: spreads `this.currentSimulation` (if any) with
`isActive` recomputed as `now - startTime < 30 * 1000`, returning it with the
current metrics and timestamp.  Read-only. -/
def handleStatusRequest (st : ActorState) (now : ℕ) : StatusResponse :=
  { simulation :=
      st.currentSimulation.map fun s =>
        { s with isActive := Decidable.decide ((now : ℤ) - (s.startTime : ℤ) < 30 * 1000) }
    metrics := st.metrics
    timestamp := now }

/-! ## Worker router (`handleSimulate`) and D1 history store -/

/-- The Worker's `validTypes = ['normal', 'spike', 'ddos']` constant. -/
def validTypes : List String := ["normal", "spike", "ddos"]

/-- Parsed JSON body of a POST `/api/simulate` to the Worker.  The caller may
or may not supply a `simulationId` field; the source destructures only
`{ type }` from the body. -/
structure WorkerBody where
  type : String
  simulationId : Option String
deriving DecidableEq, Repr

/-- The server-side id built by the Worker:
``simulationId = `sim-${Date.now()}-${Math.random().toString(36).slice(2, 8)}` ``,
with the random suffix made an explicit parameter. -/
def routerSimulationId (nowMs : ℕ) (randSuffix : String) : String :=
  "sim-" ++ toString nowMs ++ "-" ++ randSuffix

/-- The routing prefix of the Worker's `handleSimulate`: validates
`validTypes.includes(type)` (else a 400, modelled as `none`), generates the
server-side `simulationId`, and forwards `{type, simulationId}` to the Durable
Object. -/
def handleSimulateRouter (body : WorkerBody) (nowMs : ℕ) (randSuffix : String) :
    Option SimBody :=
  if validTypes.contains body.type then
    some { type := body.type, simulationId := some (routerSimulationId nowMs randSuffix) }
  else
    none

/-- One row of the `simulation_metrics` D1 table, reduced to the two columns
the pruning query reads: the autoincrement primary key `id` and `timestamp`.
The remaining metric and text columns do not affect which rows
`limitStoredMetrics` deletes. -/
structure MetricsRow where
  id : ℕ
  timestamp : ℕ
deriving DecidableEq, Repr

/-- `ORDER BY timestamp DESC`: newer timestamps first. -/
def tsDesc (a b : MetricsRow) : Prop := b.timestamp ≤ a.timestamp

instance : DecidableRel tsDesc := fun a b => by unfold tsDesc; infer_instance

/-- The subquery `SELECT id FROM simulation_metrics ORDER BY timestamp DESC
LIMIT 500`: ids of the 500 rows with the newest timestamps. -/
def keepIds (rows : List MetricsRow) : List ℕ :=
  ((rows.insertionSort tsDesc).take 500).map (·.id)

/-- `limitStoredMetrics`: `DELETE FROM simulation_metrics WHERE id NOT IN
(SELECT id … ORDER BY timestamp DESC LIMIT 500)` — the rows that survive are
exactly those whose id is among `keepIds`. -/
def limitStoredMetrics (rows : List MetricsRow) : List MetricsRow :=
  rows.filter fun r => (keepIds rows).contains r.id

/-- One `INSERT INTO simulation_metrics …` appends a row. -/
def insertRow (rows : List MetricsRow) (r : MetricsRow) : List MetricsRow :=
  rows ++ [r]

/-- The gateway's write path iterated from an empty table: each simulation
request inserts one row and then runs `limitStoredMetrics`
(`ctx.waitUntil(limitStoredMetrics(env))` after each insert). -/
def runInserts (rows : List MetricsRow) : List MetricsRow :=
  rows.foldl (fun table r => limitStoredMetrics (insertRow table r)) []

/-- Rows arrive with strictly increasing autoincrement ids and strictly
increasing timestamps. -/
def RowsIncreasing (rows : List MetricsRow) : Prop :=
  rows.Chain' fun a b => a.id < b.id ∧ a.timestamp < b.timestamp

/-- Executable check for `RowsIncreasing`. -/
def rowsIncreasingB : List MetricsRow → Bool
  | [] => true
  | [_] => true
  | a :: b :: t =>
      (Decidable.decide (a.id < b.id) && Decidable.decide (a.timestamp < b.timestamp)) &&
        rowsIncreasingB (b :: t)

theorem rowsIncreasingB_iff :
    ∀ rows : List MetricsRow, rowsIncreasingB rows = true ↔ RowsIncreasing rows
  | [] => by simp [rowsIncreasingB, RowsIncreasing]
  | [a] => by simp [rowsIncreasingB, RowsIncreasing]
  | a :: b :: t => by
      have ih := rowsIncreasingB_iff (b :: t)
      unfold RowsIncreasing at ih ⊢
      rw [List.chain'_cons, ← ih]
      simp [rowsIncreasingB, Bool.and_eq_true, and_assoc]

instance (rows : List MetricsRow) : Decidable (RowsIncreasing rows) :=
  decidable_of_iff _ (rowsIncreasingB_iff rows)

/-! ## Theorems -/

/-- C8: persisting the ActorState as the single durable blob and restoring a
fresh actor from it yields a `status()` response identical to the one observed
before the restart, at any read time; absence of the blob on first read is not
an error and yields the initial state. -/
theorem c8_persist_restore_roundtrip :
    (∀ (st : ActorState) (now : ℕ),
      handleStatusRequest (restoreState (some (persistStateBlob st))) now =
        handleStatusRequest st now) ∧
    restoreState none = initialActorState := by
  refine ⟨fun st now => rfl, rfl⟩

/-- C1 (counterexample): a `simulate` call whose durable write fails leaves the
in-memory state holding the new simulation record — it is NOT rolled back to
its pre-call value. -/
theorem c1_counterexample :
    (handleSimulateRequest initialActorState ⟨"normal", some "sim-1"⟩ 0
        ⟨0, 0, 0, 0, 0⟩ .unavailable false).result = .storageError ∧
    (handleSimulateRequest initialActorState ⟨"normal", some "sim-1"⟩ 0
        ⟨0, 0, 0, 0, 0⟩ .unavailable false).state.currentSimulation ≠
      initialActorState.currentSimulation := by
  exact ⟨by decide, by decide⟩

/-- C1 (amended): when the durable write of ActorState fails, the error
propagates to the caller as a storage failure, but the in-memory ActorState
keeps the newly assigned `currentSimulation` and `metrics` — it is not rolled
back, so in-memory and persisted state can diverge. -/
theorem c1_storage_failure_no_rollback (st : ActorState) (type sid : String)
    (now : ℕ) (d : Draws) (ai : AIOutcome) (sc : Scenario)
    (h : scenarioOfString type = some sc) :
    handleSimulateRequest st ⟨type, some sid⟩ now d ai false =
      { result := .storageError
        state := { currentSimulation := some ⟨sid, sc, now, true⟩
                   metrics := generateMetrics sc d }
        persisted := none
        trace := [.buildRecord, .generateMetricsEv, .updateState, .persistEv] } := by
  simp [handleSimulateRequest, h]

/-- Witness for `c1_storage_failure_no_rollback` at a concrete input. -/
theorem c1_storage_failure_no_rollback_witness :
    scenarioOfString "normal" = some .normal ∧
    handleSimulateRequest initialActorState ⟨"normal", some "sim-1"⟩ 5
        ⟨0, 0, 0, 0, 0⟩ .unavailable false =
      { result := .storageError
        state := { currentSimulation := some ⟨"sim-1", .normal, 5, true⟩
                   metrics := generateMetrics .normal ⟨0, 0, 0, 0, 0⟩ }
        persisted := none
        trace := [.buildRecord, .generateMetricsEv, .updateState, .persistEv] } :=
  ⟨by decide,
   c1_storage_failure_no_rollback initialActorState "normal" "sim-1" 5
     ⟨0, 0, 0, 0, 0⟩ .unavailable .normal (by decide)⟩

/-- C2 (counterexample): on a successful `simulate` call the Explanation
Provider runs AFTER the state update and the durable write, not between the
Metric Generator and the state update as claimed. -/
theorem c2_counterexample :
    (handleSimulateRequest initialActorState ⟨"normal", some "sim-1"⟩ 0
        ⟨0, 0, 0, 0, 0⟩ .unavailable true).trace =
      [.buildRecord, .generateMetricsEv, .updateState, .persistEv, .explainEv,
       .respond] ∧
    (handleSimulateRequest initialActorState ⟨"normal", some "sim-1"⟩ 0
        ⟨0, 0, 0, 0, 0⟩ .unavailable true).trace ≠
      [.buildRecord, .generateMetricsEv, .explainEv, .updateState, .persistEv,
       .respond] := by
  exact ⟨by decide, by decide⟩

/-- C2 (amended): every successful `simulate` call performs, in order: build
the record with the current timestamp, generate the metrics, update
ActorState, persist it durably, call the Explanation Provider, then respond;
the explanation string travels as a separate field of the response alongside
the record. -/
theorem c2_success_order (st : ActorState) (type sid : String) (now : ℕ)
    (d : Draws) (ai : AIOutcome) (sc : Scenario)
    (h : scenarioOfString type = some sc) :
    handleSimulateRequest st ⟨type, some sid⟩ now d ai true =
      { result := .ok ⟨sid, sc, now, true⟩ (generateMetrics sc d)
          (getAIExplanation sc ai) now
        state := { currentSimulation := some ⟨sid, sc, now, true⟩
                   metrics := generateMetrics sc d }
        persisted := some { currentSimulation := some ⟨sid, sc, now, true⟩
                            metrics := generateMetrics sc d }
        trace := [.buildRecord, .generateMetricsEv, .updateState, .persistEv,
                  .explainEv, .respond] } := by
  simp [handleSimulateRequest, h, persistStateBlob]

/-- Witness for `c2_success_order` at a concrete input. -/
theorem c2_success_order_witness :
    scenarioOfString "ddos" = some .ddos ∧
    handleSimulateRequest initialActorState ⟨"ddos", some "sim-2"⟩ 9
        ⟨0, 0, 0, 0, 0⟩ .timeout true =
      { result := .ok ⟨"sim-2", .ddos, 9, true⟩
          (generateMetrics .ddos ⟨0, 0, 0, 0, 0⟩)
          (getAIExplanation .ddos .timeout) 9
        state := { currentSimulation := some ⟨"sim-2", .ddos, 9, true⟩
                   metrics := generateMetrics .ddos ⟨0, 0, 0, 0, 0⟩ }
        persisted := some { currentSimulation := some ⟨"sim-2", .ddos, 9, true⟩
                            metrics := generateMetrics .ddos ⟨0, 0, 0, 0, 0⟩ }
        trace := [.buildRecord, .generateMetricsEv, .updateState, .persistEv,
                  .explainEv, .respond] } :=
  ⟨by decide,
   c2_success_order initialActorState "ddos" "sim-2" 9 ⟨0, 0, 0, 0, 0⟩ .timeout
     .ddos (by decide)⟩

/-- C3 (counterexample): `simulate("normal", "")` with an EMPTY id string is
accepted — the code only checks `typeof simulationId === 'string'`, so it does
not signal an invalid request as the claim requires for a non-non-empty id. -/
theorem c3_counterexample :
    ((handleSimulateRequest initialActorState ⟨"normal", some ""⟩ 0
        ⟨0, 0, 0, 0, 0⟩ .unavailable true).result).isInvalid = false := by
  decide

/-- C3 (amended): when the scenario tag is not one of {normal, spike, ddos},
or the id is not a string at all, `simulate` rejects the request before any
mutation: the result is the invalid-request error, ActorState is unchanged and
nothing is written durably.  (An empty string id, however, is accepted.) -/
theorem c3_invalid_request (st : ActorState) (body : SimBody) (now : ℕ)
    (d : Draws) (ai : AIOutcome) (storageOk : Bool)
    (h : scenarioOfString body.type = none ∨ body.simulationId = none) :
    handleSimulateRequest st body now d ai storageOk =
      { result := .invalidRequest, state := st, persisted := none,
        trace := [.reject] } := by
  obtain ⟨t, i⟩ := body
  rcases h with h | h
  · simp only at h
    simp [handleSimulateRequest, h]
  · simp only at h
    subst h
    cases hsc : scenarioOfString t <;> simp [handleSimulateRequest, hsc]

/-- Witness for `c3_invalid_request` at a concrete input. -/
theorem c3_invalid_request_witness :
    (scenarioOfString "flood" = none ∨ (some "sim-1" : Option String) = none) ∧
    handleSimulateRequest initialActorState ⟨"flood", some "sim-1"⟩ 0
        ⟨0, 0, 0, 0, 0⟩ .unavailable true =
      { result := .invalidRequest, state := initialActorState, persisted := none,
        trace := [.reject] } :=
  ⟨by decide,
   c3_invalid_request initialActorState ⟨"flood", some "sim-1"⟩ 0
     ⟨0, 0, 0, 0, 0⟩ .unavailable true (by decide)⟩

/-- C7 (counterexample): the record created by `simulate` carries a stored
`isActive := true` field, which is also persisted in the durable blob; a
`status()` read 30 seconds later recomputes `isActive = false` while the
stored field still says `true` — so `isActive` IS stored as a field of the
record and of the persisted state, contrary to the claim. -/
theorem c7_counterexample :
    (handleSimulateRequest initialActorState ⟨"normal", some "sim-1"⟩ 0
        ⟨0, 0, 0, 0, 0⟩ .unavailable true).state.currentSimulation =
      some ⟨"sim-1", .normal, 0, true⟩ ∧
    ((handleSimulateRequest initialActorState ⟨"normal", some "sim-1"⟩ 0
        ⟨0, 0, 0, 0, 0⟩ .unavailable true).persisted.map
          (·.currentSimulation)) = some (some ⟨"sim-1", .normal, 0, true⟩) ∧
    (handleStatusRequest
        (handleSimulateRequest initialActorState ⟨"normal", some "sim-1"⟩ 0
          ⟨0, 0, 0, 0, 0⟩ .unavailable true).state 30000).simulation =
      some ⟨"sim-1", .normal, 0, false⟩ := by
  exact ⟨by decide, by decide, by decide⟩

/-- C7 (amended): a SimulationRecord is never mutated after creation, and
`status()` recomputes `isActive` at read time as `now - startTime < 30_000`;
however the record as created (and persisted) does carry an `isActive` field,
statically set to `true`, which `status()` merely shadows on reads. -/
theorem c7_isActive_recomputed :
    (∀ (st : ActorState) (now : ℕ) (s : Simulation),
      st.currentSimulation = some s →
      (handleStatusRequest st now).simulation =
        some { s with isActive :=
          Decidable.decide ((now : ℤ) - (s.startTime : ℤ) < 30 * 1000) } ∧
      (handleStatusRequest st now).metrics = st.metrics) ∧
    (∀ (st : ActorState) (type sid : String) (now : ℕ) (d : Draws)
      (ai : AIOutcome) (sc : Scenario), scenarioOfString type = some sc →
      (handleSimulateRequest st ⟨type, some sid⟩ now d ai true).state.currentSimulation =
        some ⟨sid, sc, now, true⟩) := by
  constructor
  · intro st now s h
    simp [handleStatusRequest, h]
  · intro st type sid now d ai sc h
    simp [handleSimulateRequest, h]

/-- Witness for `c7_isActive_recomputed` at concrete inputs. -/
theorem c7_isActive_recomputed_witness :
    ({ currentSimulation := some ⟨"sim-1", .normal, 0, true⟩
       metrics := getInitialMetrics } : ActorState).currentSimulation =
      some ⟨"sim-1", .normal, 0, true⟩ ∧
    (handleStatusRequest
        { currentSimulation := some ⟨"sim-1", .normal, 0, true⟩
          metrics := getInitialMetrics } 30000).simulation =
      some { (⟨"sim-1", .normal, 0, true⟩ : Simulation) with
        isActive := Decidable.decide ((30000 : ℤ) - ((0 : ℕ) : ℤ) < 30 * 1000) } ∧
    scenarioOfString "spike" = some .spike ∧
    (handleSimulateRequest initialActorState ⟨"spike", some "sim-3"⟩ 2
        ⟨0, 0, 0, 0, 0⟩ .unavailable true).state.currentSimulation =
      some ⟨"sim-3", .spike, 2, true⟩ :=
  ⟨by decide,
   (c7_isActive_recomputed.1
     { currentSimulation := some ⟨"sim-1", .normal, 0, true⟩
       metrics := getInitialMetrics } 30000 ⟨"sim-1", .normal, 0, true⟩ rfl).1,
   by decide,
   c7_isActive_recomputed.2 initialActorState "spike" "sim-3" 2 ⟨0, 0, 0, 0, 0⟩
     .unavailable .spike (by decide)⟩

/-- A whitespace-only string trims to the empty string. -/
theorem jsTrim_eq_empty_of_whitespace (s : String)
    (h : ∀ c ∈ s.data, c.isWhitespace) : jsTrim s = "" := by
  unfold jsTrim
  rw [List.dropWhile_eq_nil_iff.mpr h]
  rfl

/-- C5: `explain(scenario, metrics)` never fails and always returns a
non-empty string; on capability-unavailable, call error, timeout, or an empty
or whitespace-only response it returns the deterministic canned explanation
keyed by the scenario. -/
theorem c5_explain_total :
    (∀ sc : Scenario,
      getAIExplanation sc .unavailable = fallbackFor sc ∧
      getAIExplanation sc .callError = fallbackFor sc ∧
      getAIExplanation sc .timeout = fallbackFor sc) ∧
    (∀ (sc : Scenario) (s : String), (∀ c ∈ s.data, c.isWhitespace) →
      getAIExplanation sc (.ok s) = fallbackFor sc) ∧
    (∀ (sc : Scenario) (outcome : AIOutcome), getAIExplanation sc outcome ≠ "") := by
  refine ⟨fun sc => ⟨rfl, rfl, rfl⟩, ?_, ?_⟩
  · intro sc s h
    simp [getAIExplanation, jsTrim_eq_empty_of_whitespace s h]
  · intro sc outcome
    cases outcome with
    | ok s =>
        by_cases hT : jsTrim s = ""
        · simp only [getAIExplanation, hT, if_true]
          cases sc <;> decide
        · simp [getAIExplanation, hT]
    | unavailable => cases sc <;> decide
    | callError => cases sc <;> decide
    | timeout => cases sc <;> decide

/-- Witness for `c5_explain_total` at concrete inputs. -/
theorem c5_explain_total_witness :
    (∀ c ∈ ("  ".data), c.isWhitespace) ∧
    getAIExplanation .ddos (.ok "  ") = fallbackFor .ddos ∧
    getAIExplanation .ddos .timeout ≠ "" :=
  ⟨by decide, c5_explain_total.2.1 .ddos "  " (by decide),
   c5_explain_total.2.2 .ddos .timeout⟩

/-- C10: the router generates the simulation id server-side as
`sim-<timestamp>-<random suffix>`; any caller-supplied id in the body is
ignored, and whenever a request is forwarded to the actor its id is that
generated, non-empty string. -/
theorem c10_router_generates_id (body : WorkerBody) (nowMs : ℕ)
    (randSuffix : String) :
    (∀ callerId : Option String,
      handleSimulateRouter { body with simulationId := callerId } nowMs
          randSuffix =
        handleSimulateRouter body nowMs randSuffix) ∧
    (∀ fwd : SimBody,
      handleSimulateRouter body nowMs randSuffix = some fwd →
      fwd.simulationId = some (routerSimulationId nowMs randSuffix) ∧
      routerSimulationId nowMs randSuffix ≠ "") := by
  constructor
  · intro callerId
    rfl
  · intro fwd h
    unfold handleSimulateRouter at h
    split at h
    · cases h
      refine ⟨rfl, ?_⟩
      intro hempty
      unfold routerSimulationId at hempty
      have hl := congrArg String.length hempty
      rw [String.length_append, String.length_append, String.length_append] at hl
      simp only [show ("sim-" : String).length = 4 from rfl,
        show ("-" : String).length = 1 from rfl,
        show ("" : String).length = 0 from rfl] at hl
      omega
    · cases h

/-- `Math.round` is bounded below by any integer lower bound of its argument. -/
theorem jsRound_ge (n : ℤ) (q : ℚ) (h : (n : ℚ) ≤ q) : n ≤ jsRound q := by
  unfold jsRound
  rw [Int.le_floor]
  linarith

/-- `Math.round` is bounded above by any strict integer upper bound of its
argument. -/
theorem jsRound_le (n : ℤ) (q : ℚ) (h : q < (n : ℚ)) : jsRound q ≤ n := by
  have hlt : jsRound q < n + 1 := by
    unfold jsRound
    rw [Int.floor_lt]
    push_cast
    linarith
  omega

/-- `Math.floor` is bounded below by any integer lower bound of its argument. -/
theorem jsFloor_ge (n : ℤ) (q : ℚ) (h : (n : ℚ) ≤ q) : n ≤ jsFloor q :=
  Int.le_floor.mpr h

/-- `Math.floor q ≤ n` whenever `q < n + 1`. -/
theorem jsFloor_le (n : ℤ) (q : ℚ) (h : q < (n : ℚ) + 1) : jsFloor q ≤ n := by
  have hlt : jsFloor q < n + 1 := by
    unfold jsFloor
    rw [Int.floor_lt]
    push_cast
    linarith
  omega

/-- `roundSuccess` maps a value of `[a, b)` (with `0 ≤ a`, `b ≤ 100`) into
`[a, b]`, producing a multiple of one tenth. -/
theorem roundSuccess_bounds (a b : ℤ) (v : ℚ) (ha : 0 ≤ a) (hb : b ≤ 100)
    (h1 : (a : ℚ) ≤ v) (h2 : v < (b : ℚ)) :
    (a : ℚ) ≤ roundSuccess v ∧ roundSuccess v ≤ (b : ℚ) ∧
      (10 * roundSuccess v).den = 1 := by
  have hv100 : v ≤ 100 := by
    have hb' : (b : ℚ) ≤ 100 := by exact_mod_cast hb
    linarith
  have hv0 : 0 ≤ v := by
    have ha' : (0 : ℚ) ≤ (a : ℚ) := by exact_mod_cast ha
    linarith
  have hclamp : max 0 (min 100 v) = v := by
    rw [min_eq_right hv100, max_eq_right hv0]
  unfold roundSuccess
  rw [hclamp]
  have hlo : 10 * a ≤ jsRound (v * 10) := jsRound_ge _ _ (by push_cast; linarith)
  have hhi : jsRound (v * 10) ≤ 10 * b := jsRound_le _ _ (by push_cast; linarith)
  have hloQ : ((10 * a : ℤ) : ℚ) ≤ (jsRound (v * 10) : ℚ) := by exact_mod_cast hlo
  have hhiQ : ((jsRound (v * 10) : ℤ) : ℚ) ≤ ((10 * b : ℤ) : ℚ) := by
    exact_mod_cast hhi
  push_cast at hloQ hhiQ
  refine ⟨?_, ?_, ?_⟩
  · rw [le_div_iff₀ (by norm_num : (0 : ℚ) < 10)]
    linarith
  · rw [div_le_iff₀ (by norm_num : (0 : ℚ) < 10)]
    linarith
  · have h10 : (10 : ℚ) * ((jsRound (v * 10) : ℚ) / 10) = (jsRound (v * 10) : ℚ) := by
      ring
    rw [h10, Rat.den_intCast]

/-- Modelled from the spec: the per-scenario numeric bounds of the §4.1 table
(latency in the tabulated millisecond range, success percent in the tabulated
range and a multiple of one tenth, request and error counts as tabulated).
This predicate is the spec side of the refinement claim C4 — it is compared
against `generateMetrics`, which is the source side. -/
def specMetricBounds (sc : Scenario) (m : MetricPair) : Prop :=
  match sc with
  | .normal =>
      (95 ≤ m.cloudflare.latency ∧ m.cloudflare.latency ≤ 105) ∧
      m.cloudflare.successRate = 100 ∧
      (10 * m.cloudflare.successRate).den = 1 ∧
      m.cloudflare.requestsHandled = 10 ∧ m.cloudflare.errors = 0 ∧
      (100 ≤ m.origin.latency ∧ m.origin.latency ≤ 120) ∧
      m.origin.successRate = 100 ∧
      (10 * m.origin.successRate).den = 1 ∧
      m.origin.requestsHandled = 10 ∧ m.origin.errors = 0
  | .spike =>
      (120 ≤ m.cloudflare.latency ∧ m.cloudflare.latency ≤ 150) ∧
      (98 ≤ m.cloudflare.successRate ∧ m.cloudflare.successRate ≤ 100) ∧
      (10 * m.cloudflare.successRate).den = 1 ∧
      m.cloudflare.requestsHandled = 500 ∧
      (0 ≤ m.cloudflare.errors ∧ m.cloudflare.errors ≤ 9) ∧
      (2000 ≤ m.origin.latency ∧ m.origin.latency ≤ 3000) ∧
      (40 ≤ m.origin.successRate ∧ m.origin.successRate ≤ 60) ∧
      (10 * m.origin.successRate).den = 1 ∧
      m.origin.requestsHandled = 300 ∧ m.origin.errors = 200
  | .ddos =>
      (150 ≤ m.cloudflare.latency ∧ m.cloudflare.latency ≤ 200) ∧
      (95 ≤ m.cloudflare.successRate ∧ m.cloudflare.successRate ≤ 98) ∧
      (10 * m.cloudflare.successRate).den = 1 ∧
      m.cloudflare.requestsHandled = 10000 ∧
      (0 ≤ m.cloudflare.errors ∧ m.cloudflare.errors ≤ 499) ∧
      (5000 ≤ m.origin.latency ∧ m.origin.latency ≤ 7000) ∧
      (0 ≤ m.origin.successRate ∧ m.origin.successRate ≤ 10) ∧
      (10 * m.origin.successRate).den = 1 ∧
      m.origin.requestsHandled = 500 ∧ m.origin.errors = 9500

/-- `10 * 100` has denominator 1 (the constant success rates are integral). -/
theorem den_ten_hundred : ((10 : ℚ) * 100).den = 1 := by
  have h : (10 : ℚ) * 100 = ((1000 : ℤ) : ℚ) := by norm_num
  rw [h, Rat.den_intCast]

/-- C4: for every scenario tag and every sequence of `Math.random()` draws in
`[0, 1)`, `generateMetrics` returns a pair within the documented per-scenario
bounds of the §4.1 table, with latencies integral, success rates a multiple of
one tenth in `[0, 100]`, and the fixed request/error counts exact. -/
theorem c4_generate_bounds (sc : Scenario) (d : Draws) (h : ValidDraws d) :
    specMetricBounds sc (generateMetrics sc d) := by
  obtain ⟨⟨h1l, h1u⟩, ⟨h2l, h2u⟩, ⟨h3l, h3u⟩, ⟨h4l, h4u⟩, ⟨h5l, h5u⟩⟩ := h
  cases sc with
  | normal =>
      refine ⟨⟨?_, ?_⟩, rfl, den_ten_hundred, rfl, rfl, ⟨?_, ?_⟩, rfl,
        den_ten_hundred, rfl, rfl⟩
      · exact jsRound_ge 95 _ (by push_cast; linarith)
      · exact jsRound_le 105 _ (by push_cast; linarith)
      · exact jsRound_ge 100 _ (by push_cast; linarith)
      · exact jsRound_le 120 _ (by push_cast; linarith)
  | spike =>
      have hcf := roundSuccess_bounds 98 100 (98 + d.d2 * 2) (by norm_num)
        (by norm_num) (by push_cast; linarith) (by push_cast; linarith)
      have hor := roundSuccess_bounds 40 60 (40 + d.d5 * 20) (by norm_num)
        (by norm_num) (by push_cast; linarith) (by push_cast; linarith)
      refine ⟨⟨?_, ?_⟩, ⟨?_, ?_⟩, hcf.2.2, rfl, ⟨?_, ?_⟩, ⟨?_, ?_⟩, ⟨?_, ?_⟩,
        hor.2.2, rfl, rfl⟩
      · exact jsRound_ge 120 _ (by push_cast; linarith)
      · exact jsRound_le 150 _ (by push_cast; linarith)
      · exact_mod_cast hcf.1
      · exact_mod_cast hcf.2.1
      · exact jsFloor_ge 0 _ (by push_cast; linarith)
      · exact jsFloor_le 9 _ (by push_cast; linarith)
      · exact jsRound_ge 2000 _ (by push_cast; linarith)
      · exact jsRound_le 3000 _ (by push_cast; linarith)
      · exact_mod_cast hor.1
      · exact_mod_cast hor.2.1
  | ddos =>
      have hcf := roundSuccess_bounds 95 98 (95 + d.d2 * 3) (by norm_num)
        (by norm_num) (by push_cast; linarith) (by push_cast; linarith)
      have hor := roundSuccess_bounds 0 10 (d.d5 * 10) (by norm_num)
        (by norm_num) (by push_cast; linarith) (by push_cast; linarith)
      refine ⟨⟨?_, ?_⟩, ⟨?_, ?_⟩, hcf.2.2, rfl, ⟨?_, ?_⟩, ⟨?_, ?_⟩, ⟨?_, ?_⟩,
        hor.2.2, rfl, rfl⟩
      · exact jsRound_ge 150 _ (by push_cast; linarith)
      · exact jsRound_le 200 _ (by push_cast; linarith)
      · exact_mod_cast hcf.1
      · exact_mod_cast hcf.2.1
      · exact jsFloor_ge 0 _ (by push_cast; linarith)
      · exact jsFloor_le 499 _ (by push_cast; linarith)
      · exact jsRound_ge 5000 _ (by push_cast; linarith)
      · exact jsRound_le 7000 _ (by push_cast; linarith)
      · exact_mod_cast hor.1
      · exact_mod_cast hor.2.1

/-- Witness for `c4_generate_bounds` at a concrete draw vector. -/
theorem c4_generate_bounds_witness :
    ValidDraws ⟨0, 0, 0, 0, 0⟩ ∧
      specMetricBounds .ddos (generateMetrics .ddos ⟨0, 0, 0, 0, 0⟩) :=
  ⟨⟨⟨le_refl 0, zero_lt_one⟩, ⟨le_refl 0, zero_lt_one⟩, ⟨le_refl 0, zero_lt_one⟩,
    ⟨le_refl 0, zero_lt_one⟩, ⟨le_refl 0, zero_lt_one⟩⟩,
   c4_generate_bounds .ddos ⟨0, 0, 0, 0, 0⟩
     ⟨⟨le_refl 0, zero_lt_one⟩, ⟨le_refl 0, zero_lt_one⟩, ⟨le_refl 0, zero_lt_one⟩,
      ⟨le_refl 0, zero_lt_one⟩, ⟨le_refl 0, zero_lt_one⟩⟩⟩

/-- Witness for `c10_router_generates_id` at a concrete input. -/
theorem c10_router_generates_id_witness :
    handleSimulateRouter ⟨"ddos", some "caller-pick"⟩ 7 "abc123" =
      handleSimulateRouter ⟨"ddos", none⟩ 7 "abc123" ∧
    (SimBody.mk "ddos" (some (routerSimulationId 7 "abc123"))).simulationId =
      some (routerSimulationId 7 "abc123") ∧
    routerSimulationId 7 "abc123" ≠ "" :=
  ⟨(c10_router_generates_id ⟨"ddos", none⟩ 7 "abc123").1 (some "caller-pick"),
   (c10_router_generates_id ⟨"ddos", none⟩ 7 "abc123").2
     ⟨"ddos", some (routerSimulationId 7 "abc123")⟩ rfl⟩

/-- Inserting a row strictly older than every element of a
timestamp-descending list lands at the very end. -/
theorem orderedInsert_of_older (x : MetricsRow) (l : List MetricsRow)
    (h : ∀ y ∈ l, x.timestamp < y.timestamp) :
    List.orderedInsert tsDesc x l = l ++ [x] := by
  induction l with
  | nil => simp
  | cons b t ih =>
      have hxb : ¬ tsDesc x b := by
        have := h b (List.mem_cons_self b t)
        unfold tsDesc
        omega
      simp only [List.orderedInsert, if_neg hxb, List.cons_append,
        List.cons.injEq, true_and]
      exact ih fun y hy => h y (List.mem_cons_of_mem b hy)

/-- Sorting a strictly timestamp-ascending list by `ORDER BY timestamp DESC`
reverses it. -/
theorem insertionSort_of_increasing (l : List MetricsRow)
    (h : l.Pairwise fun a b => a.timestamp < b.timestamp) :
    List.insertionSort tsDesc l = l.reverse := by
  induction l with
  | nil => rfl
  | cons b t ih =>
      rw [List.pairwise_cons] at h
      show List.orderedInsert tsDesc b (List.insertionSort tsDesc t) =
        (b :: t).reverse
      rw [ih h.2, List.reverse_cons]
      exact orderedInsert_of_older b t.reverse fun y hy =>
        h.1 y (List.mem_reverse.mp hy)

/-- A filter that accepts exactly the elements of `l.drop k` returns
`l.drop k`. -/
theorem filter_take_drop (p : MetricsRow → Bool) (l : List MetricsRow) (k : ℕ)
    (h1 : ∀ r ∈ l.drop k, p r = true) (h2 : ∀ r ∈ l.take k, ¬ p r = true) :
    l.filter p = l.drop k := by
  conv_lhs => rw [← List.take_append_drop k l]
  rw [List.filter_append, List.filter_eq_nil_iff.mpr h2,
    List.filter_eq_self.mpr h1, List.nil_append]

/-- Pruning a table whose rows have strictly increasing ids and timestamps
keeps exactly its newest 500 rows (all rows when there are at most 500). -/
theorem limitStoredMetrics_of_increasing (l : List MetricsRow)
    (h : l.Pairwise fun a b => a.id < b.id ∧ a.timestamp < b.timestamp) :
    limitStoredMetrics l = l.drop (l.length - 500) := by
  have hts : l.Pairwise fun a b => a.timestamp < b.timestamp :=
    h.imp fun hab => hab.2
  have hid : l.Pairwise fun a b => a.id < b.id := h.imp fun hab => hab.1
  unfold limitStoredMetrics keepIds
  rw [insertionSort_of_increasing l hts]
  by_cases hlen : l.length ≤ 500
  · have hk : l.length - 500 = 0 := by omega
    have htk : l.reverse.take 500 = l.reverse :=
      List.take_of_length_le (by rw [List.length_reverse]; omega)
    rw [hk, List.drop_zero, htk, List.filter_eq_self]
    intro r hr
    simp only [List.contains_eq_any_beq, List.any_eq_true]
    exact ⟨r.id, List.mem_map_of_mem (fun x : MetricsRow => x.id) (List.mem_reverse.mpr hr),
      by simp⟩
  · have htake : l.reverse.take 500 = (l.drop (l.length - 500)).reverse := by
      have h1 := @List.reverse_take MetricsRow l.reverse 500
      rw [List.reverse_reverse, List.length_reverse] at h1
      rw [← List.reverse_reverse (l.reverse.take 500), h1]
    rw [htake]
    have hidsplit : ∀ a ∈ l.take (l.length - 500),
        ∀ b ∈ l.drop (l.length - 500), a.id < b.id := by
      have h2 : (l.take (l.length - 500) ++ l.drop (l.length - 500)).Pairwise
          (fun a b => a.id < b.id) := by
        rw [List.take_append_drop]
        exact hid
      rw [List.pairwise_append] at h2
      exact h2.2.2
    apply filter_take_drop _ l (l.length - 500)
    · intro r hr
      simp only [List.contains_eq_any_beq, List.any_eq_true]
      exact ⟨r.id, List.mem_map_of_mem (fun x : MetricsRow => x.id) (List.mem_reverse.mpr hr),
        by simp⟩
    · intro r hr
      simp only [List.contains_eq_any_beq, List.any_eq_true, List.mem_map,
        List.mem_reverse, beq_iff_eq, not_exists, not_and]
      rintro i ⟨y, hy, rfl⟩
      have := hidsplit r hr y hy
      omega

set_option maxRecDepth 4000 in
/-- C9: sequentially inserting rows with strictly increasing ids and
timestamps, pruning after each insert, leaves exactly the newest 500 rows (in
particular, 510 inserts leave rows 11 through 510: the 10 oldest are evicted)
and the table never exceeds 500 rows. -/
theorem c9_retention (rows : List MetricsRow) (h : RowsIncreasing rows) :
    runInserts rows = rows.drop (rows.length - 500) ∧
      (runInserts rows).length ≤ 500 := by
  haveI : IsTrans MetricsRow
      (fun a b => a.id < b.id ∧ a.timestamp < b.timestamp) :=
    ⟨fun _ _ _ h1 h2 => ⟨lt_trans h1.1 h2.1, lt_trans h1.2 h2.2⟩⟩
  unfold RowsIncreasing at h
  rw [List.chain'_iff_pairwise] at h
  have main : ∀ l : List MetricsRow,
      l.Pairwise (fun a b => a.id < b.id ∧ a.timestamp < b.timestamp) →
      runInserts l = l.drop (l.length - 500) := by
    intro l
    induction l using List.reverseRecOn with
    | nil => intro _; rfl
    | append_singleton l r ih =>
        intro hpw
        rw [List.pairwise_append] at hpw
        obtain ⟨hl, -, hrel⟩ := hpw
        have step : runInserts (l ++ [r]) =
            limitStoredMetrics (insertRow (runInserts l) r) := by
          unfold runInserts
          rw [List.foldl_append]
          rfl
        rw [step, ih hl]
        have hTpw : ((l.drop (l.length - 500)) ++ [r]).Pairwise
            (fun a b => a.id < b.id ∧ a.timestamp < b.timestamp) := by
          rw [List.pairwise_append]
          refine ⟨List.Pairwise.sublist (List.drop_sublist _ l) hl, by simp, ?_⟩
          intro a ha b hb
          exact hrel a (List.Sublist.subset (List.drop_sublist _ l) ha) b hb
        have hprune := limitStoredMetrics_of_increasing
          ((l.drop (l.length - 500)) ++ [r]) hTpw
        show limitStoredMetrics ((l.drop (l.length - 500)) ++ [r]) = _
        rw [hprune]
        have hdropapp : (l.drop (l.length - 500)) ++ [r] =
            (l ++ [r]).drop (l.length - 500) := by
          rw [List.drop_append_of_le_length (by omega)]
        rw [hdropapp]
        rw [List.drop_drop]
        have hidx : (l.length - 500) +
            (((l ++ [r]).drop (l.length - 500)).length - 500) =
            (l ++ [r]).length - 500 := by
          simp only [List.length_drop, List.length_append, List.length_singleton]
          omega
        rw [hidx]
  have heq := main rows h
  refine ⟨heq, ?_⟩
  rw [heq, List.length_drop]
  omega

set_option maxRecDepth 40000 in
/-- Witness for `c9_retention`: 510 sequential inserts with increasing ids and
timestamps leave exactly the last 500 rows — the 10 oldest are evicted. -/
theorem c9_retention_witness :
    RowsIncreasing ((List.range 510).map fun i => ⟨i + 1, i + 1⟩) ∧
      runInserts ((List.range 510).map fun i => ⟨i + 1, i + 1⟩) =
        ((List.range 510).map fun i => (⟨i + 1, i + 1⟩ : MetricsRow)).drop
          (((List.range 510).map fun i => (⟨i + 1, i + 1⟩ : MetricsRow)).length
            - 500) ∧
      (runInserts ((List.range 510).map fun i => ⟨i + 1, i + 1⟩)).length ≤ 500 :=
  ⟨by decide,
   (c9_retention ((List.range 510).map fun i => ⟨i + 1, i + 1⟩) (by decide)).1,
   (c9_retention ((List.range 510).map fun i => ⟨i + 1, i + 1⟩) (by decide)).2⟩

end CFDash
